import Mathlib

/-!
Verification of the natural-language specification of the
Converse-With-Your-Data pipeline against a shallow embedding of its
TypeScript source.

The embedding covers:
* `src/services/dataService.ts` — `validateSQL`, `executeSQL`;
* `src/services/geminiService.ts` — `generateSQLFromPrompt`;
* `src/App.tsx` — `addToHistory`, `handlePromptSubmit`, `handleManualSqlRun`;
* `src/components/Visualization.tsx` — the `analysis` column profiler.

External collaborators (the AlaSQL engine, the language-model call, the
browser clock `Date.now()`, and `Date.parse`) are modelled as explicit
parameters, exactly at the boundary where the source reads them.
-/

namespace ConverseData

/-- A JavaScript scalar value as it appears in a parsed CSV row:
number, string, boolean, `null`, or `undefined` (absent property). -/
inductive JSValue where
  | num (n : Int)
  | str (s : String)
  | bool (b : Bool)
  | null
  | undefined
deriving DecidableEq, Repr

/-- A data row: an object mapping column names to scalar values
(`DataRow` in `types.ts`); property lookup on a missing key yields
`undefined`, as in JavaScript. -/
abbrev DataRow := List (String × JSValue)

/-! ### JavaScript string primitives

`String.prototype.replace` (global, empty replacement),
`String.prototype.trim`, `String.prototype.toLowerCase` and
`String.prototype.includes`, modelled structurally over character
lists so that every definition evaluates inside the kernel. -/

/-- `pat` matches at the head of `s`. -/
def matchesAt (pat : List Char) (s : List Char) : Bool :=
  match pat, s with
  | [], _ => true
  | _ :: _, [] => false
  | p :: ps, c :: cs => p = c && matchesAt ps cs

/-- Remove every non-overlapping leftmost occurrence of `pat`
(`skip` counts characters of a matched occurrence still to drop). -/
def removeAllAux (pat : List Char) (skip : Nat) : List Char → List Char
  | [] => []
  | c :: cs =>
    match skip with
    | Nat.succ k => removeAllAux pat k cs
    | 0 =>
      if pat ≠ [] && matchesAt pat (c :: cs) then
        removeAllAux pat (pat.length - 1) cs
      else c :: removeAllAux pat 0 cs

/-- JavaScript `s.replace(pat-as-global-regex-literal, '')`. -/
def jsRemoveAll (s pat : String) : String :=
  String.mk (removeAllAux pat.toList 0 s.toList)

/-- JavaScript whitespace for `trim` (the characters relevant to SQL
text). -/
def isWS (c : Char) : Bool :=
  c = ' ' || c = '\t' || c = '\n' || c = '\r'

/-- Drop leading whitespace characters. -/
def dropLeadingWS : List Char → List Char
  | [] => []
  | c :: cs => if isWS c then dropLeadingWS cs else c :: cs

/-- JavaScript `s.trim()`. -/
def jsTrim (s : String) : String :=
  String.mk ((dropLeadingWS ((dropLeadingWS s.toList.reverse).reverse)))

/-- JavaScript `s.toLowerCase()` (ASCII, as relevant to column names). -/
def jsToLower (s : String) : String :=
  String.mk (s.toList.map Char.toLower)

/-- `pat` occurs somewhere in `s`. -/
def hasSub (pat : List Char) : List Char → Bool
  | [] => matchesAt pat []
  | c :: cs => matchesAt pat (c :: cs) || hasSub pat cs

/-- JavaScript `s.includes(pat)`. -/
def strIncludes (s pat : String) : Bool :=
  hasSub pat.toList s.toList

/-- JavaScript property access `r[col]`: the first binding for `col`,
or `undefined` when the key is absent. -/
def getVal (r : DataRow) (col : String) : JSValue :=
  match r.find? (fun p => p.1 == col) with
  | some p => p.2
  | none => JSValue.undefined

/-- The AlaSQL engine (`window.alasql`), abstracted at its documented
contract: `parse` throws (with a message) on a syntax error, and running
a statement over the positionally bound dataset either returns rows or
throws with a message. -/
structure AlaSql where
  parse : String → Except String Unit
  run : String → List DataRow → Except String (List DataRow)

/-- `QueryResult` from `types.ts`: result rows, an optional error
message, and an optional measured execution time. -/
structure QueryResult where
  data : List DataRow
  error : Option String := none
  executionTimeMs : Option Nat := none
deriving DecidableEq, Repr

/-- `ValidationOutcome` of `validateSQL`. -/
structure ValidationOutcome where
  valid : Bool
  error : Option String := none
deriving DecidableEq, Repr

/-- `validateSQL` from `src/services/dataService.ts` (lines 40-50):
fail open when `window.alasql` is unavailable; otherwise parse, and on a
thrown exception report `err.message || 'Syntax error'` (the fallback
fires exactly when the thrown message is falsy, i.e. empty). -/
def validateSQL (alasql : Option AlaSql) (sql : String) : ValidationOutcome :=
  match alasql with
  | none => { valid := true }
  | some w =>
    match w.parse sql with
    | Except.ok _ => { valid := true }
    | Except.error msg =>
      { valid := false, error := some (if msg = "" then "Syntax error" else msg) }

/-- `executeSQL` from `src/services/dataService.ts` (lines 52-76).
`elapsedMs` models the `performance.now()` difference measured around
the engine call; it is only reported on the success path. -/
def executeSQL (alasql : Option AlaSql) (elapsedMs : Nat) (sql : String)
    (data : List DataRow) : QueryResult :=
  match alasql with
  | none => { data := [], error := some "AlaSQL library not loaded" }
  | some w =>
    match w.run sql data with
    | Except.ok res => { data := res, executionTimeMs := some elapsedMs }
    | Except.error msg =>
      { data := [],
        error := some (if msg = "" then "Unknown SQL execution error" else msg) }

/-- Both validator calls of a double validation, reading the same engine
state (`window.alasql` is not written by `validateSQL`). -/
def validateTwice (alasql : Option AlaSql) (sql : String) :
    ValidationOutcome × ValidationOutcome :=
  (validateSQL alasql sql, validateSQL alasql sql)

/-! ## `src/services/geminiService.ts` -/

/-- The post-processing step of `generateSQLFromPrompt`:
`sql.replace(/```sql/g, '').replace(/```/g, '').trim()`. -/
def stripFences (s : String) : String :=
  jsTrim (jsRemoveAll (jsRemoveAll s "```sql") "```")

/-- `generateSQLFromPrompt` from `src/services/geminiService.ts`
(lines 88-107), as a function of the external model call's outcome.
`modelResponse` is the outcome of `ai.models.generateContent`:
`Except.error` models the call throwing, `Except.ok t` a response whose
`text` field is `t` (`none` models an absent text, read as `''` by
`response.text || ''`). The catch block rethrows a fixed message. -/
def generateSQLFromPrompt (modelResponse : Except String (Option String)) :
    Except String String :=
  match modelResponse with
  | Except.error _ => Except.error "Failed to generate SQL from prompt."
  | Except.ok t => Except.ok (stripFences (t.getD ""))

/-! ## `src/App.tsx` — history ledger and orchestrator -/

/-- Submission status recorded in a history entry. -/
inductive Status where
  | success
  | error
deriving DecidableEq, Repr

/-- JavaScript's `Number.prototype.toString()` on the non-negative
integer returned by `Date.now()`: the decimal representation. -/
def jsNatRepr (n : Nat) : String :=
  if n = 0 then "0"
  else String.mk (((Nat.digits 10 n).map Nat.digitChar).reverse)

/-- `HistoryItem` from `src/App.tsx` (lines 23-30). `timestamp` is the
`Date.now()` millisecond reading backing `new Date()`. -/
structure HistoryItem where
  id : String
  prompt : String
  sql : String
  timestamp : Nat
  result : QueryResult
  status : Status
deriving DecidableEq, Repr

/-- The new entry built by `addToHistory` (lines 107-114): id and
timestamp from the `Date.now()` reading `now`, the prompt defaulted via
`promptText || 'Manual SQL Query'` (the default fires on the empty
string, the only falsy string). -/
def mkHistoryItem (now : Nat) (promptText sql : String) (result : QueryResult)
    (isSuccess : Bool) : HistoryItem :=
  { id := jsNatRepr now,
    prompt := if promptText = "" then "Manual SQL Query" else promptText,
    sql := sql,
    timestamp := now,
    result := result,
    status := if isSuccess then Status.success else Status.error }

/-- `addToHistory` (lines 106-116): `setHistory(prev => [newItem, ...prev])`. -/
def addToHistory (now : Nat) (promptText sql : String) (result : QueryResult)
    (isSuccess : Bool) (prev : List HistoryItem) : List HistoryItem :=
  mkHistoryItem now promptText sql result isSuccess :: prev

/-- The SQL-status indicator state of `App`. -/
inductive SqlStatus where
  | idle
  | checking
  | valid
  | invalid
deriving DecidableEq, Repr

/-- The component state of `App` touched by the two submission
handlers. -/
structure AppCoreState where
  prompt : String
  generatedSql : String
  queryResult : Option QueryResult
  sqlStatus : SqlStatus
  isGenerating : Bool
  history : List HistoryItem
deriving Repr

/-- `handlePromptSubmit` from `src/App.tsx` (lines 118-161), as a pure
step over `AppCoreState`. External inputs: the engine `alasql`, the
model call's outcome `modelResponse`, the `Date.now()` reading `now`,
the measured execution duration `elapsed`, and the loaded dataset
`data`. The second component is the list of SQL strings passed to
`executeSQL` during the step (the execution trace). -/
def handlePromptSubmit (alasql : Option AlaSql)
    (modelResponse : Except String (Option String)) (now elapsed : Nat)
    (data : List DataRow) (st : AppCoreState) : AppCoreState × List String :=
  if jsTrim st.prompt = "" ∨ st.isGenerating then (st, [])
  else
    let st1 := { st with isGenerating := true, queryResult := none,
                         generatedSql := "", sqlStatus := SqlStatus.idle }
    match generateSQLFromPrompt modelResponse with
    | Except.error msg =>
      let errorResult : QueryResult := { data := [], error := some msg }
      ({ st1 with queryResult := some errorResult,
                  sqlStatus := SqlStatus.invalid,
                  history := addToHistory now st.prompt "" errorResult false st.history,
                  isGenerating := false }, [])
    | Except.ok sql =>
      let st2 := { st1 with generatedSql := sql, sqlStatus := SqlStatus.checking }
      let validation := validateSQL alasql sql
      if validation.valid = false then
        let errorResult : QueryResult :=
          { data := [],
            error := some ("SQL Syntax Error: " ++ validation.error.getD "undefined") }
        ({ st2 with sqlStatus := SqlStatus.invalid,
                    queryResult := some errorResult,
                    history := addToHistory now st.prompt sql errorResult false st.history,
                    isGenerating := false }, [])
      else
        let result := executeSQL alasql elapsed sql data
        ({ st2 with sqlStatus := SqlStatus.valid,
                    queryResult := some result,
                    history := addToHistory now st.prompt sql result
                      result.error.isNone st.history,
                    isGenerating := false }, [sql])

/-- `handleManualSqlRun` from `src/App.tsx` (lines 163-179), same
conventions as `handlePromptSubmit`. The invalid branch updates the
status and visible result but returns before `addToHistory`. -/
def handleManualSqlRun (alasql : Option AlaSql) (now elapsed : Nat)
    (data : List DataRow) (st : AppCoreState) : AppCoreState × List String :=
  if jsTrim st.generatedSql = "" then (st, [])
  else
    let validation := validateSQL alasql st.generatedSql
    if validation.valid = false then
      let errorResult : QueryResult :=
        { data := [],
          error := some ("SQL Syntax Error: " ++ validation.error.getD "undefined") }
      ({ st with sqlStatus := SqlStatus.invalid, queryResult := some errorResult }, [])
    else
      let result := executeSQL alasql elapsed st.generatedSql data
      ({ st with sqlStatus := SqlStatus.valid,
                 queryResult := some result,
                 history := addToHistory now "Manual Query" st.generatedSql result
                   result.error.isNone st.history }, [st.generatedSql])

/-! ## `src/components/Visualization.tsx` — column profiler (`analysis`) -/

/-- `val === null || val === undefined || val === ''` (strict equality:
only the empty string among strings, and neither booleans nor
numbers). -/
def isSkipped : JSValue → Bool
  | JSValue.null => true
  | JSValue.undefined => true
  | JSValue.str s => s = ""
  | _ => false

/-- `typeof val === 'number'`. -/
def isNum : JSValue → Bool
  | JSValue.num _ => true
  | _ => false

/-- JavaScript loose `val == null`: true exactly on `null` and
`undefined`. -/
def isNullish : JSValue → Bool
  | JSValue.null => true
  | JSValue.undefined => true
  | _ => false

/-- `sampleRows.find(r => r[col] != null)?.[col]`: the value of the
first row whose `col` property is neither `null` nor `undefined`;
`none` models the optional chain yielding `undefined`. -/
def firstNonNull (col : String) (rows : List DataRow) : Option JSValue :=
  (rows.find? (fun r => !isNullish (getVal r col))).map (fun r => getVal r col)

/-- The date heuristic of `Visualization.analysis` (line 43): the first
non-null sampled value is a string that `Date.parse` accepts (`dp`
models `!isNaN(Date.parse s)`) and either the lowercased column name
includes `"date"` or `"time"`, or the value includes `'-'` or `'/'`. -/
def temporalCheck (dp : String → Bool) (col : String) (rows : List DataRow) : Bool :=
  match firstNonNull col rows with
  | some (JSValue.str s) =>
    dp s && (strIncludes (jsToLower col) "date" || strIncludes (jsToLower col) "time"
             || strIncludes s "-" || strIncludes s "/")
  | _ => false

/-- The strict numeric scan of `Visualization.analysis` (lines 47-57):
returns `(isNumeric, hasData)`. Skipped values are passed over; the
first non-skipped value marks `hasData`; a non-skipped non-number sets
`isNumeric := false` and breaks. -/
def scanNumeric (col : String) : List DataRow → Bool × Bool
  | [] => (true, false)
  | r :: rs =>
    let v := getVal r col
    if isSkipped v then scanNumeric col rs
    else if isNum v then ((scanNumeric col rs).1, true)
    else (false, true)

/-- Column categories produced by the profiler. -/
inductive Cat where
  | numeric
  | categorical
  | date
deriving DecidableEq, Repr

/-- The per-column decision of `Visualization.analysis` (lines 36-64):
the temporal check comes first and short-circuits the numeric scan;
otherwise the column is recorded only when `hasData` holds or the first
non-null value was not `undefined`, as numeric when the scan saw only
numbers and as categorical otherwise. `none` means the column lands in
no category. -/
def classifyColumn (dp : String → Bool) (col : String) (rows : List DataRow) :
    Option Cat :=
  if temporalCheck dp col rows then some Cat.date
  else
    let scan := scanNumeric col rows
    if scan.2 || (firstNonNull col rows).isSome then
      if scan.1 then some Cat.numeric else some Cat.categorical
    else none

/-- The profile returned by `Visualization.analysis`. -/
structure Analysis where
  numeric : List String
  categorical : List String
  date : List String
deriving DecidableEq, Repr

/-- `Object.keys(data[0])` (lines 30 and 36): the column list of the
first row; empty for an empty dataset. -/
def colsOf (data : List DataRow) : List String :=
  match data with
  | [] => []
  | r :: _ => r.map Prod.fst

/-- `Visualization.analysis` (lines 24-67): on a non-empty dataset,
sample the first 10 rows (`data.slice(0, Math.min(data.length, 10))`)
and distribute the columns of the first row over the three category
lists in column order. -/
def analysis (dp : String → Bool) (data : List DataRow) : Analysis :=
  match data with
  | [] => { numeric := [], categorical := [], date := [] }
  | r0 :: _ =>
    let sampleRows := data.take 10
    let cols := r0.map Prod.fst
    { numeric := cols.filter (fun c => classifyColumn dp c sampleRows == some Cat.numeric),
      categorical :=
        cols.filter (fun c => classifyColumn dp c sampleRows == some Cat.categorical),
      date := cols.filter (fun c => classifyColumn dp c sampleRows == some Cat.date) }

/-! ## Helper lemmas -/

theorem scanNumeric_fst_eq_all (col : String) (rows : List DataRow) :
    (scanNumeric col rows).1 =
      rows.all (fun r => isSkipped (getVal r col) || isNum (getVal r col)) := by
  induction rows with
  | nil => rfl
  | cons r rs ih =>
    simp only [scanNumeric, List.all_cons]
    by_cases h1 : isSkipped (getVal r col)
    · simp [h1, ih]
    · by_cases h2 : isNum (getVal r col) <;> simp [h1, h2, ih]

theorem scanNumeric_snd_eq_any (col : String) (rows : List DataRow) :
    (scanNumeric col rows).2 =
      rows.any (fun r => !isSkipped (getVal r col)) := by
  induction rows with
  | nil => rfl
  | cons r rs ih =>
    simp only [scanNumeric, List.any_cons]
    by_cases h1 : isSkipped (getVal r col)
    · simp [h1, ih]
    · by_cases h2 : isNum (getVal r col) <;> simp [h1, h2]

theorem mem_analysis_numeric (dp : String → Bool) (data : List DataRow)
    (col : String) :
    col ∈ (analysis dp data).numeric ↔
      col ∈ colsOf data ∧
        classifyColumn dp col (data.take 10) = some Cat.numeric := by
  cases data with
  | nil => simp [analysis, colsOf]
  | cons r0 rest => simp [analysis, colsOf, List.mem_filter]

theorem mem_analysis_categorical (dp : String → Bool) (data : List DataRow)
    (col : String) :
    col ∈ (analysis dp data).categorical ↔
      col ∈ colsOf data ∧
        classifyColumn dp col (data.take 10) = some Cat.categorical := by
  cases data with
  | nil => simp [analysis, colsOf]
  | cons r0 rest => simp [analysis, colsOf, List.mem_filter]

theorem mem_analysis_date (dp : String → Bool) (data : List DataRow)
    (col : String) :
    col ∈ (analysis dp data).date ↔
      col ∈ colsOf data ∧
        classifyColumn dp col (data.take 10) = some Cat.date := by
  cases data with
  | nil => simp [analysis, colsOf]
  | cons r0 rest => simp [analysis, colsOf, List.mem_filter]

theorem temporalCheck_eq_true_iff (dp : String → Bool) (col : String)
    (rows : List DataRow) :
    temporalCheck dp col rows = true ↔
      ∃ s, firstNonNull col rows = some (JSValue.str s) ∧ dp s = true ∧
        (strIncludes (jsToLower col) "date" = true ∨
         strIncludes (jsToLower col) "time" = true ∨
         strIncludes s "-" = true ∨ strIncludes s "/" = true) := by
  unfold temporalCheck
  cases h : firstNonNull col rows with
  | none => simp
  | some v =>
    cases v <;>
      simp_all [Bool.and_eq_true, Bool.or_eq_true, or_assoc]

theorem digitChar_inj_of_lt (d1 d2 : Nat) (h1 : d1 < 10) (h2 : d2 < 10)
    (h : Nat.digitChar d1 = Nat.digitChar d2) : d1 = d2 := by
  interval_cases d1 <;> interval_cases d2 <;> first | rfl | exact absurd h (by decide)

theorem map_digitChar_inj (l1 l2 : List Nat) (h1 : ∀ d ∈ l1, d < 10)
    (h2 : ∀ d ∈ l2, d < 10)
    (h : l1.map Nat.digitChar = l2.map Nat.digitChar) : l1 = l2 := by
  induction l1 generalizing l2 with
  | nil => cases l2 <;> simp_all
  | cons a as ih =>
    cases l2 with
    | nil => simp_all
    | cons b bs =>
      simp only [List.map_cons, List.cons.injEq] at h
      have hab : a = b :=
        digitChar_inj_of_lt a b (h1 a (by simp)) (h2 b (by simp)) h.1
      have hbs : as = bs :=
        ih bs (fun d hd => h1 d (by simp [hd])) (fun d hd => h2 d (by simp [hd])) h.2
      rw [hab, hbs]

theorem jsNatRepr_injective (m n : Nat) (h : jsNatRepr m = jsNatRepr n) : m = n := by
  have digitsChars : ∀ k : Nat, k ≠ 0 →
      String.mk (((Nat.digits 10 k).map Nat.digitChar).reverse) = "0" → False := by
    intro k hk hs
    have hdata : ((Nat.digits 10 k).map Nat.digitChar).reverse = ['0'] :=
      congrArg String.data hs
    have hmap : (Nat.digits 10 k).map Nat.digitChar = ['0'] := by
      have := congrArg List.reverse hdata
      simpa using this
    have hdig : Nat.digits 10 k = [0] := by
      apply map_digitChar_inj _ [0]
        (fun d hd => Nat.digits_lt_base (by norm_num) hd) (by simp)
      simpa using hmap
    have : k = 0 := by
      have := Nat.ofDigits_digits 10 k
      rw [hdig] at this
      simpa [Nat.ofDigits] using this.symm
    exact hk this
  unfold jsNatRepr at h
  by_cases hm : m = 0 <;> by_cases hn : n = 0
  · rw [hm, hn]
  · exact absurd (by simpa [hm, hn] using h.symm) (fun hc => digitsChars n hn hc)
  · exact absurd (by simpa [hm, hn] using h) (fun hc => digitsChars m hm hc)
  · simp only [hm, hn, if_false] at h
    have hdata : ((Nat.digits 10 m).map Nat.digitChar).reverse =
        ((Nat.digits 10 n).map Nat.digitChar).reverse := congrArg String.data h
    have hmap : (Nat.digits 10 m).map Nat.digitChar =
        (Nat.digits 10 n).map Nat.digitChar := by
      have := congrArg List.reverse hdata
      simpa using this
    have hdig : Nat.digits 10 m = Nat.digits 10 n :=
      map_digitChar_inj _ _ (fun d hd => Nat.digits_lt_base (by norm_num) hd)
        (fun d hd => Nat.digits_lt_base (by norm_num) hd) hmap
    exact Nat.digits_inj_iff.mp hdig

/-! ## Claim C1 — `executeSQL` error contract -/

/-- Claim C1: for every SQL string and dataset, `executeSQL` returns a
structured `QueryResult` with the rows field present in every outcome and
never raises: an unavailable engine yields `data = []` with the
"AlaSQL library not loaded" message and no execution attempt, an engine
exception yields `data = []` with the thrown message as the error, and a
successful run yields the engine's rows with no error. -/
theorem executeSQL_total_error_contract (alasql : Option AlaSql) (elapsed : Nat)
    (sql : String) (data : List DataRow) :
    (alasql = none →
      executeSQL alasql elapsed sql data =
        { data := [], error := some "AlaSQL library not loaded",
          executionTimeMs := none })
    ∧ (∀ w msg, alasql = some w → w.run sql data = Except.error msg →
        (executeSQL alasql elapsed sql data).data = []
        ∧ (executeSQL alasql elapsed sql data).error ≠ none
        ∧ (msg ≠ "" → (executeSQL alasql elapsed sql data).error = some msg))
    ∧ (∀ w rows, alasql = some w → w.run sql data = Except.ok rows →
        executeSQL alasql elapsed sql data =
          { data := rows, error := none, executionTimeMs := some elapsed }) := by
  refine ⟨fun h => by subst h; rfl, fun w msg hw hrun => ?_, fun w rows hw hrun => ?_⟩
  · subst hw
    have hdef : executeSQL (some w) elapsed sql data =
        { data := [],
          error := some (if msg = "" then "Unknown SQL execution error" else msg) } := by
      simp [executeSQL, hrun]
    rw [hdef]
    refine ⟨rfl, by simp, fun hmsg => by simp [hmsg]⟩
  · subst hw
    simp [executeSQL, hrun]

/-- An engine whose execution always throws, for exercising the error
contract. -/
def throwingEngine : AlaSql :=
  { parse := fun _ => Except.ok (),
    run := fun _ _ => Except.error "Column not found: nonexistent_col" }

/-- Witness for C1: a concrete throwing engine and a concrete missing
engine both yield structured error results. -/
theorem executeSQL_total_error_contract_witness :
    ((executeSQL (some throwingEngine) 7 "SELECT nonexistent_col FROM ?" []).data = []
      ∧ (executeSQL (some throwingEngine) 7 "SELECT nonexistent_col FROM ?" []).error ≠ none
      ∧ ("Column not found: nonexistent_col" ≠ "" →
          (executeSQL (some throwingEngine) 7 "SELECT nonexistent_col FROM ?" []).error =
            some "Column not found: nonexistent_col"))
    ∧ executeSQL none 7 "SELECT 1" [] =
        { data := [], error := some "AlaSQL library not loaded",
          executionTimeMs := none } :=
  ⟨(executeSQL_total_error_contract (some throwingEngine) 7
      "SELECT nonexistent_col FROM ?" []).2.1 throwingEngine
      "Column not found: nonexistent_col" rfl rfl,
   (executeSQL_total_error_contract none 7 "SELECT 1" []).1 rfl⟩

/-! ## Claim C3 — `validateSQL` fail-open and diagnostic message -/

/-- A parser that throws with an empty (falsy) message. -/
def emptyMessageEngine : AlaSql :=
  { parse := fun _ => Except.error "", run := fun _ _ => Except.ok [] }

/-- Counterexample to C3: when the parser throws with an empty message,
`validateSQL` substitutes the fallback text "Syntax error" instead of
carrying the exception message verbatim. -/
theorem validateSQL_not_verbatim :
    emptyMessageEngine.parse "SELECT" = Except.error ""
    ∧ validateSQL (some emptyMessageEngine) "SELECT" =
        { valid := false, error := some "Syntax error" }
    ∧ some "Syntax error" ≠ some ("" : String) :=
  ⟨rfl, rfl, by decide⟩

/-- Claim C3 (amended): with the engine unavailable, `validateSQL`
fails open with `valid = true` and no error field; when the engine's
parse throws, it returns `valid = false` with the thrown message
verbatim whenever that message is non-empty, substituting "Syntax
error" for an empty (falsy) message. -/
theorem validateSQL_fail_open_and_message (alasql : Option AlaSql) (sql : String) :
    validateSQL none sql = { valid := true, error := none }
    ∧ (∀ w msg, alasql = some w → w.parse sql = Except.error msg →
        validateSQL alasql sql =
          { valid := false,
            error := some (if msg = "" then "Syntax error" else msg) }) := by
  refine ⟨rfl, fun w msg hw hparse => ?_⟩
  subst hw
  simp [validateSQL, hparse]

/-- A parser that throws with a non-empty diagnostic. -/
def diagnosticEngine : AlaSql :=
  { parse := fun _ => Except.error "Unexpected token FORM",
    run := fun _ _ => Except.ok [] }

/-- Witness for C3 (amended) at a concrete unavailable engine and a
concrete throwing parser. -/
theorem validateSQL_fail_open_and_message_witness :
    validateSQL none "SELEC * FORM ?" = { valid := true, error := none }
    ∧ validateSQL (some diagnosticEngine) "SELEC * FORM ?" =
        { valid := false,
          error := some (if "Unexpected token FORM" = "" then "Syntax error"
                         else "Unexpected token FORM") } :=
  ⟨(validateSQL_fail_open_and_message none "SELEC * FORM ?").1,
   (validateSQL_fail_open_and_message (some diagnosticEngine) "SELEC * FORM ?").2
     diagnosticEngine "Unexpected token FORM" rfl rfl⟩

/-! ## Claim C4 — translator post-processing -/

/-- Counterexample to C4: a model response consisting only of fence
markers strips to the empty string, which `generateSQLFromPrompt`
returns as a success rather than failing. -/
theorem generateSQL_empty_success :
    generateSQLFromPrompt (Except.ok (some "```sql\n```")) = Except.ok "" := rfl

/-- Claim C4 (amended): `generateSQLFromPrompt` strips every occurrence
of the fence markers (the "```sql" tag form first, then bare "```") and
surrounding whitespace from the response text, and fails with the
`TranslationError` message "Failed to generate SQL from prompt." when
the external call errors; text that is empty after stripping is
returned as an empty success, not an error. -/
theorem generateSQL_strip_and_translation_error
    (resp : Except String (Option String)) :
    (∀ msg, resp = Except.error msg →
      generateSQLFromPrompt resp = Except.error "Failed to generate SQL from prompt.")
    ∧ (∀ t, resp = Except.ok t →
      generateSQLFromPrompt resp = Except.ok (stripFences (t.getD "")))
    ∧ stripFences "```sql\nSELECT * FROM ?\n```" = "SELECT * FROM ?" := by
  refine ⟨fun msg h => ?_, fun t h => ?_, by decide⟩
  · subst h; rfl
  · subst h; rfl

/-- Witness for C4 (amended): a failing external call and a fenced
response, both concrete. -/
theorem generateSQL_strip_and_translation_error_witness :
    generateSQLFromPrompt (Except.error "network failure") =
      Except.error "Failed to generate SQL from prompt."
    ∧ generateSQLFromPrompt (Except.ok (some "```sql\nSELECT 1\n```")) =
        Except.ok (stripFences ((some "```sql\nSELECT 1\n```").getD "")) :=
  ⟨(generateSQL_strip_and_translation_error (Except.error "network failure")).1
      "network failure" rfl,
   (generateSQL_strip_and_translation_error
      (Except.ok (some "```sql\nSELECT 1\n```"))).2.1 (some "```sql\nSELECT 1\n```") rfl⟩

/-! ## Claim C10 — validation idempotence -/

/-- Claim C10: validating the same SQL string twice against the same
engine state yields two identical `ValidationOutcome` values; the
validator mutates no hidden state. -/
theorem validateSQL_idempotent (alasql : Option AlaSql) (sql : String) :
    (validateTwice alasql sql).1 = (validateTwice alasql sql).2 := rfl

/-! ## Claim C7 — strict numeric classification -/

/-- Claim C7: for a sampled column not short-circuited by the temporal
check, numeric classification requires every non-skipped sampled value
(not null, undefined, or the empty string) to be a number, and one
non-skipped non-numeric value anywhere in the sample makes the column
categorical instead of numeric. -/
theorem strict_numeric_classification (dp : String → Bool) (data : List DataRow)
    (col : String) (hmem : col ∈ colsOf data)
    (hnt : temporalCheck dp col (data.take 10) = false) :
    (col ∈ (analysis dp data).numeric →
      ∀ r ∈ data.take 10,
        isSkipped (getVal r col) = true ∨ isNum (getVal r col) = true)
    ∧ ((∃ r ∈ data.take 10,
          isSkipped (getVal r col) = false ∧ isNum (getVal r col) = false) →
        col ∈ (analysis dp data).categorical ∧ col ∉ (analysis dp data).numeric) := by
  have hall := scanNumeric_fst_eq_all col (data.take 10)
  have hany := scanNumeric_snd_eq_any col (data.take 10)
  constructor
  · intro hnum r hr
    have hclass := (mem_analysis_numeric dp data col).mp hnum
    have hfst : (scanNumeric col (data.take 10)).1 = true := by
      by_contra hfalse
      have : classifyColumn dp col (data.take 10) ≠ some Cat.numeric := by
        unfold classifyColumn
        rw [hnt]
        simp only [Bool.false_eq_true, if_false]
        split
        · simp [Bool.eq_false_iff.mpr hfalse]
        · simp
      exact this hclass.2
    have := List.all_eq_true.mp (hall ▸ hfst) r hr
    rcases Bool.or_eq_true_iff.mp this with h | h
    · exact Or.inl h
    · exact Or.inr h
  · rintro ⟨r, hr, hsk, hnm⟩
    have hfst : (scanNumeric col (data.take 10)).1 = false := by
      rw [hall]
      refine List.all_eq_false.mpr ⟨r, hr, ?_⟩
      simp [hsk, hnm]
    have hsnd : (scanNumeric col (data.take 10)).2 = true := by
      rw [hany]
      exact List.any_eq_true.mpr ⟨r, hr, by simp [hsk]⟩
    have hclass : classifyColumn dp col (data.take 10) = some Cat.categorical := by
      unfold classifyColumn
      rw [hnt]
      simp [hsnd, hfst]
    constructor
    · exact (mem_analysis_categorical dp data col).mpr ⟨hmem, hclass⟩
    · intro hnum
      have := (mem_analysis_numeric dp data col).mp hnum
      rw [hclass] at this
      exact absurd this.2 (by simp)

/-- Witness for C7: the spec's own example column with sampled values
`[1, 2, "x", 4]` is classified categorical and not numeric. -/
theorem strict_numeric_classification_witness :
    ("c" ∈ (analysis (fun _ => false)
        [[("c", JSValue.num 1)], [("c", JSValue.num 2)],
         [("c", JSValue.str "x")], [("c", JSValue.num 4)]]).categorical
      ∧ "c" ∉ (analysis (fun _ => false)
        [[("c", JSValue.num 1)], [("c", JSValue.num 2)],
         [("c", JSValue.str "x")], [("c", JSValue.num 4)]]).numeric) :=
  (strict_numeric_classification (fun _ => false)
      [[("c", JSValue.num 1)], [("c", JSValue.num 2)],
       [("c", JSValue.str "x")], [("c", JSValue.num 4)]] "c"
      (by decide) (by decide)).2
    ⟨[("c", JSValue.str "x")], by decide, by decide, by decide⟩

/-! ## Claim C8 — temporal classification and its short-circuit -/

/-- Claim C8: a column is classified temporal exactly when its first
non-null sampled value is a string accepted by the date parser and
either the lowercased column name includes "date" or "time" or the
value includes a '-' or '/' separator; a successful temporal check
short-circuits the numeric/categorical scan for that column. -/
theorem temporal_classification (dp : String → Bool) (data : List DataRow)
    (col : String) (hmem : col ∈ colsOf data) :
    (col ∈ (analysis dp data).date ↔
      ∃ s, firstNonNull col (data.take 10) = some (JSValue.str s) ∧ dp s = true ∧
        (strIncludes (jsToLower col) "date" = true ∨
         strIncludes (jsToLower col) "time" = true ∨
         strIncludes s "-" = true ∨ strIncludes s "/" = true))
    ∧ (temporalCheck dp col (data.take 10) = true →
        col ∉ (analysis dp data).numeric ∧ col ∉ (analysis dp data).categorical) := by
  have hdateiff : col ∈ (analysis dp data).date ↔
      temporalCheck dp col (data.take 10) = true := by
    rw [mem_analysis_date]
    constructor
    · rintro ⟨-, hclass⟩
      by_contra htc
      rw [Bool.not_eq_true] at htc
      unfold classifyColumn at hclass
      rw [htc] at hclass
      simp only [Bool.false_eq_true, if_false] at hclass
      split at hclass <;> [skip; exact absurd hclass (by simp)]
      split at hclass <;> exact absurd hclass (by simp)
    · intro htc
      refine ⟨hmem, ?_⟩
      unfold classifyColumn
      rw [htc]
      rfl
  constructor
  · rw [hdateiff]
    exact temporalCheck_eq_true_iff dp col (data.take 10)
  · intro htc
    have hclass : classifyColumn dp col (data.take 10) = some Cat.date := by
      unfold classifyColumn
      rw [htc]
      rfl
    constructor
    · intro hnum
      have := (mem_analysis_numeric dp data col).mp hnum
      rw [hclass] at this
      exact absurd this.2 (by simp)
    · intro hcat
      have := (mem_analysis_categorical dp data col).mp hcat
      rw [hclass] at this
      exact absurd this.2 (by simp)

/-- Witness for C8: a concrete "date" column holding "2023-01-15", with
an accepting date parser, lands in the temporal category and in neither
other category. -/
theorem temporal_classification_witness :
    ("date" ∈ (analysis (fun _ => true)
        [[("date", JSValue.str "2023-01-15")]]).date)
    ∧ ("date" ∉ (analysis (fun _ => true)
        [[("date", JSValue.str "2023-01-15")]]).numeric) :=
  ⟨((temporal_classification (fun _ => true) [[("date", JSValue.str "2023-01-15")]]
      "date" (by decide)).1).mpr
      ⟨"2023-01-15", by decide, rfl, by decide⟩,
   ((temporal_classification (fun _ => true) [[("date", JSValue.str "2023-01-15")]]
      "date" (by decide)).2 (by decide)).1⟩

/-! ## Claim C9 — columns with only skipped values -/

/-- Counterexample to C9: a column whose only sampled value is the empty
string (a skipped value) is not omitted — the scan leaves `isNumeric`
true, the empty string is a non-null first value, and the column is
classified numeric. -/
theorem empty_string_column_classified :
    isSkipped (JSValue.str "") = true
    ∧ "a" ∈ (analysis (fun _ => false) [[("a", JSValue.str "")]]).numeric := by
  constructor
  · rfl
  · decide

/-- Claim C9 (amended): a column whose sampled values are all null or
undefined is placed in none of the three categories; a column whose
sampled values are all skipped but include a non-null value (an empty
string) is classified numeric; and a column with at least one
non-skipped sampled value is placed in exactly one category. -/
theorem skipped_column_placement (dp : String → Bool) (data : List DataRow)
    (col : String) (hmem : col ∈ colsOf data) :
    ((∀ r ∈ data.take 10, isNullish (getVal r col) = true) →
      col ∉ (analysis dp data).numeric ∧ col ∉ (analysis dp data).categorical
        ∧ col ∉ (analysis dp data).date)
    ∧ ((∀ r ∈ data.take 10, isSkipped (getVal r col) = true) →
      (∃ r ∈ data.take 10, isNullish (getVal r col) = false) →
      temporalCheck dp col (data.take 10) = false →
      col ∈ (analysis dp data).numeric)
    ∧ ((∃ r ∈ data.take 10, isSkipped (getVal r col) = false) →
      ((col ∈ (analysis dp data).numeric ∧ col ∉ (analysis dp data).categorical
          ∧ col ∉ (analysis dp data).date)
        ∨ (col ∉ (analysis dp data).numeric ∧ col ∈ (analysis dp data).categorical
          ∧ col ∉ (analysis dp data).date)
        ∨ (col ∉ (analysis dp data).numeric ∧ col ∉ (analysis dp data).categorical
          ∧ col ∈ (analysis dp data).date))) := by
  have hnum := mem_analysis_numeric dp data col
  have hcat := mem_analysis_categorical dp data col
  have hdat := mem_analysis_date dp data col
  refine ⟨fun hnull => ?_, fun hskip hnonnull htc => ?_, fun hdata => ?_⟩
  · have hfnn : firstNonNull col (data.take 10) = none := by
      unfold firstNonNull
      rw [List.find?_eq_none.mpr]
      · rfl
      · intro r hr
        simp [hnull r hr]
    have hsnd : (scanNumeric col (data.take 10)).2 = false := by
      rw [scanNumeric_snd_eq_any]
      refine List.any_eq_false.mpr fun r hr => ?_
      have := hnull r hr
      cases hv : getVal r col <;> simp_all [isNullish, isSkipped]
    have htc : temporalCheck dp col (data.take 10) = false := by
      unfold temporalCheck
      rw [hfnn]
    have hclass : classifyColumn dp col (data.take 10) = none := by
      unfold classifyColumn
      rw [htc]
      simp [hsnd, hfnn]
    refine ⟨fun h => ?_, fun h => ?_, fun h => ?_⟩
    · exact absurd ((hnum.mp h).2) (by simp [hclass])
    · exact absurd ((hcat.mp h).2) (by simp [hclass])
    · exact absurd ((hdat.mp h).2) (by simp [hclass])
  · obtain ⟨r, hr, hrnn⟩ := hnonnull
    have hfst : (scanNumeric col (data.take 10)).1 = true := by
      rw [scanNumeric_fst_eq_all]
      exact List.all_eq_true.mpr fun x hx => by simp [hskip x hx]
    have hfnn : (firstNonNull col (data.take 10)).isSome = true := by
      unfold firstNonNull
      rw [Option.isSome_map']
      exact List.find?_isSome.mpr ⟨r, hr, by simp [hrnn]⟩
    have hclass : classifyColumn dp col (data.take 10) = some Cat.numeric := by
      unfold classifyColumn
      rw [htc]
      simp [hfnn, hfst]
    exact hnum.mpr ⟨hmem, hclass⟩
  · obtain ⟨r, hr, hrsk⟩ := hdata
    by_cases htc : temporalCheck dp col (data.take 10) = true
    · have hclass : classifyColumn dp col (data.take 10) = some Cat.date := by
        unfold classifyColumn
        rw [htc]
        rfl
      refine Or.inr (Or.inr ⟨fun h => ?_, fun h => ?_, hdat.mpr ⟨hmem, hclass⟩⟩)
      · exact absurd ((hnum.mp h).2) (by simp [hclass])
      · exact absurd ((hcat.mp h).2) (by simp [hclass])
    · rw [Bool.not_eq_true] at htc
      have hsnd : (scanNumeric col (data.take 10)).2 = true := by
        rw [scanNumeric_snd_eq_any]
        exact List.any_eq_true.mpr ⟨r, hr, by simp [hrsk]⟩
      cases hfst : (scanNumeric col (data.take 10)).1 with
      | true =>
        have hclass : classifyColumn dp col (data.take 10) = some Cat.numeric := by
          unfold classifyColumn
          rw [htc]
          simp [hsnd, hfst]
        refine Or.inl ⟨hnum.mpr ⟨hmem, hclass⟩, fun h => ?_, fun h => ?_⟩
        · exact absurd ((hcat.mp h).2) (by simp [hclass])
        · exact absurd ((hdat.mp h).2) (by simp [hclass])
      | false =>
        have hclass : classifyColumn dp col (data.take 10) = some Cat.categorical := by
          unfold classifyColumn
          rw [htc]
          simp [hsnd, hfst]
        refine Or.inr (Or.inl ⟨fun h => ?_, hcat.mpr ⟨hmem, hclass⟩, fun h => ?_⟩)
        · exact absurd ((hnum.mp h).2) (by simp [hclass])
        · exact absurd ((hdat.mp h).2) (by simp [hclass])

/-- Witness for C9 (amended): an all-null column lands in no category,
while a column holding the number 1 lands exactly in the numeric
category. -/
theorem skipped_column_placement_witness :
    ("n" ∉ (analysis (fun _ => false) [[("n", JSValue.null)]]).numeric
      ∧ "n" ∉ (analysis (fun _ => false) [[("n", JSValue.null)]]).categorical
      ∧ "n" ∉ (analysis (fun _ => false) [[("n", JSValue.null)]]).date)
    ∧ (("c" ∈ (analysis (fun _ => false) [[("c", JSValue.num 1)]]).numeric
          ∧ "c" ∉ (analysis (fun _ => false) [[("c", JSValue.num 1)]]).categorical
          ∧ "c" ∉ (analysis (fun _ => false) [[("c", JSValue.num 1)]]).date)
        ∨ ("c" ∉ (analysis (fun _ => false) [[("c", JSValue.num 1)]]).numeric
          ∧ "c" ∈ (analysis (fun _ => false) [[("c", JSValue.num 1)]]).categorical
          ∧ "c" ∉ (analysis (fun _ => false) [[("c", JSValue.num 1)]]).date)
        ∨ ("c" ∉ (analysis (fun _ => false) [[("c", JSValue.num 1)]]).numeric
          ∧ "c" ∉ (analysis (fun _ => false) [[("c", JSValue.num 1)]]).categorical
          ∧ "c" ∈ (analysis (fun _ => false) [[("c", JSValue.num 1)]]).date)) :=
  ⟨(skipped_column_placement (fun _ => false) [[("n", JSValue.null)]] "n"
      (by decide)).1 (by decide),
   (skipped_column_placement (fun _ => false) [[("c", JSValue.num 1)]] "c"
      (by decide)).2.2 ⟨[("c", JSValue.num 1)], by decide, by decide⟩⟩

/-! ## Claim C2 — execution gated on validation -/

/-- Claim C2: on both the model-generated and the manual-run paths, a
submission whose SQL fails validation never reaches `executeSQL` (the
execution trace is empty) and terminates in the invalid status with the
validator's diagnostic in the displayed error; every SQL string that is
executed passed validation first. -/
theorem execution_gated_on_validation (alasql : Option AlaSql)
    (modelResponse : Except String (Option String)) (now elapsed : Nat)
    (data : List DataRow) (st : AppCoreState) :
    (∀ sql msg, jsTrim st.prompt ≠ "" → st.isGenerating = false →
      generateSQLFromPrompt modelResponse = Except.ok sql →
      validateSQL alasql sql = { valid := false, error := some msg } →
      (handlePromptSubmit alasql modelResponse now elapsed data st).2 = []
      ∧ (handlePromptSubmit alasql modelResponse now elapsed data st).1.sqlStatus
          = SqlStatus.invalid
      ∧ (handlePromptSubmit alasql modelResponse now elapsed data st).1.queryResult
          = some { data := [], error := some ("SQL Syntax Error: " ++ msg) })
    ∧ (∀ msg, jsTrim st.generatedSql ≠ "" →
      validateSQL alasql st.generatedSql = { valid := false, error := some msg } →
      (handleManualSqlRun alasql now elapsed data st).2 = []
      ∧ (handleManualSqlRun alasql now elapsed data st).1.sqlStatus
          = SqlStatus.invalid
      ∧ (handleManualSqlRun alasql now elapsed data st).1.queryResult
          = some { data := [], error := some ("SQL Syntax Error: " ++ msg) })
    ∧ (∀ sql, sql ∈ (handlePromptSubmit alasql modelResponse now elapsed data st).2 →
        (validateSQL alasql sql).valid = true)
    ∧ (∀ sql, sql ∈ (handleManualSqlRun alasql now elapsed data st).2 →
        (validateSQL alasql sql).valid = true)
    ∧ (∀ sql, (validateSQL alasql sql).valid = false →
        ∃ msg, (validateSQL alasql sql).error = some msg) := by
  refine ⟨fun sql msg hp hg hok hval => ?_, fun msg hm hval => ?_,
          fun sql hsql => ?_, fun sql hsql => ?_, fun sql hval => ?_⟩
  · unfold handlePromptSubmit
    rw [if_neg (by simp [hp, hg]), hok]
    simp [hval]
  · unfold handleManualSqlRun
    rw [if_neg hm]
    simp [hval]
  · unfold handlePromptSubmit at hsql
    split at hsql
    · simp at hsql
    · split at hsql
      · simp at hsql
      · rename_i sql' heq
        dsimp only at hsql
        split at hsql
        · simp at hsql
        · rename_i hvalid
          simp only [List.mem_singleton] at hsql
          subst hsql
          simpa using hvalid
  · unfold handleManualSqlRun at hsql
    split at hsql
    · simp at hsql
    · dsimp only at hsql
      split at hsql
      · simp at hsql
      · rename_i hvalid
        simp only [List.mem_singleton] at hsql
        subst hsql
        simpa using hvalid
  · cases alasql with
    | none => simp [validateSQL] at hval
    | some w =>
      cases hp : w.parse sql with
      | ok u => simp [validateSQL, hp] at hval
      | error m =>
        refine ⟨if m = "" then "Syntax error" else m, ?_⟩
        simp [validateSQL, hp]

/-- An engine rejecting every parse with a fixed diagnostic. -/
def gateEngine : AlaSql :=
  { parse := fun _ => Except.error "Parse error near FORM",
    run := fun _ _ => Except.ok [] }

/-- A session state holding a pending prompt and an invalid SQL text. -/
def gateState : AppCoreState :=
  { prompt := "how many cases", generatedSql := "SELEC * FORM ?",
    queryResult := none, sqlStatus := SqlStatus.idle,
    isGenerating := false, history := [] }

/-- Witness for C2: with a concrete rejecting parser, both paths end in
the invalid status with an empty execution trace. -/
theorem execution_gated_on_validation_witness :
    ((handlePromptSubmit (some gateEngine) (Except.ok (some "SELEC * FORM ?"))
        0 0 [] gateState).2 = []
      ∧ (handlePromptSubmit (some gateEngine) (Except.ok (some "SELEC * FORM ?"))
          0 0 [] gateState).1.sqlStatus = SqlStatus.invalid
      ∧ (handlePromptSubmit (some gateEngine) (Except.ok (some "SELEC * FORM ?"))
          0 0 [] gateState).1.queryResult =
          some { data := [],
                 error := some ("SQL Syntax Error: " ++ "Parse error near FORM") })
    ∧ ((handleManualSqlRun (some gateEngine) 0 0 [] gateState).2 = []
      ∧ (handleManualSqlRun (some gateEngine) 0 0 [] gateState).1.sqlStatus
          = SqlStatus.invalid
      ∧ (handleManualSqlRun (some gateEngine) 0 0 [] gateState).1.queryResult =
          some { data := [],
                 error := some ("SQL Syntax Error: " ++ "Parse error near FORM") }) :=
  ⟨(execution_gated_on_validation (some gateEngine)
      (Except.ok (some "SELEC * FORM ?")) 0 0 [] gateState).1
      "SELEC * FORM ?" "Parse error near FORM" (by decide) rfl rfl rfl,
   (execution_gated_on_validation (some gateEngine)
      (Except.ok (some "SELEC * FORM ?")) 0 0 [] gateState).2.1
      "Parse error near FORM" (by decide) rfl⟩

/-! ## Claim C5 — pipeline errors recorded in history -/

/-- A session state about to run invalid SQL manually. -/
def manualInvalidState : AppCoreState :=
  { prompt := "", generatedSql := "SELEC * FORM ?", queryResult := none,
    sqlStatus := SqlStatus.idle, isGenerating := false, history := [] }

/-- Counterexample to C5: a manual run whose SQL fails validation ends
in the error state with the diagnostic displayed, yet appends no entry
to the history. -/
theorem manual_invalid_not_recorded :
    (handleManualSqlRun (some gateEngine) 0 0 [] manualInvalidState).1.history = []
    ∧ (handleManualSqlRun (some gateEngine) 0 0 [] manualInvalidState).1.sqlStatus
        = SqlStatus.invalid
    ∧ (handleManualSqlRun (some gateEngine) 0 0 [] manualInvalidState).1.queryResult
        = some { data := [],
                 error := some "SQL Syntax Error: Parse error near FORM" } :=
  ⟨rfl, rfl, rfl⟩

/-- Claim C5 (amended): translation failures, model-path validation
failures, and execution errors on either path each append exactly one
status=error entry to the history; the one exception is a manual-run
validation failure, which updates the visible error but records
nothing. -/
theorem pipeline_errors_recorded (alasql : Option AlaSql)
    (modelResponse : Except String (Option String)) (now elapsed : Nat)
    (data : List DataRow) (st : AppCoreState) :
    (∀ msg, jsTrim st.prompt ≠ "" → st.isGenerating = false →
      generateSQLFromPrompt modelResponse = Except.error msg →
      (handlePromptSubmit alasql modelResponse now elapsed data st).1.history =
        mkHistoryItem now st.prompt "" { data := [], error := some msg } false
          :: st.history)
    ∧ (∀ sql msg, jsTrim st.prompt ≠ "" → st.isGenerating = false →
      generateSQLFromPrompt modelResponse = Except.ok sql →
      validateSQL alasql sql = { valid := false, error := some msg } →
      (handlePromptSubmit alasql modelResponse now elapsed data st).1.history =
        mkHistoryItem now st.prompt sql
          { data := [], error := some ("SQL Syntax Error: " ++ msg) } false
          :: st.history)
    ∧ (∀ sql, jsTrim st.prompt ≠ "" → st.isGenerating = false →
      generateSQLFromPrompt modelResponse = Except.ok sql →
      (validateSQL alasql sql).valid = true →
      (executeSQL alasql elapsed sql data).error ≠ none →
      (handlePromptSubmit alasql modelResponse now elapsed data st).1.history =
        mkHistoryItem now st.prompt sql (executeSQL alasql elapsed sql data) false
          :: st.history)
    ∧ (∀ msg, jsTrim st.generatedSql ≠ "" →
      validateSQL alasql st.generatedSql = { valid := false, error := some msg } →
      (handleManualSqlRun alasql now elapsed data st).1.history = st.history)
    ∧ (jsTrim st.generatedSql ≠ "" →
      (validateSQL alasql st.generatedSql).valid = true →
      (executeSQL alasql elapsed st.generatedSql data).error ≠ none →
      (handleManualSqlRun alasql now elapsed data st).1.history =
        mkHistoryItem now "Manual Query" st.generatedSql
          (executeSQL alasql elapsed st.generatedSql data) false :: st.history)
    ∧ (∀ n p s r, (mkHistoryItem n p s r false).status = Status.error) := by
  refine ⟨fun msg hp hg herr => ?_, fun sql msg hp hg hok hval => ?_,
          fun sql hp hg hok hval herr => ?_, fun msg hm hval => ?_,
          fun hm hval herr => ?_, fun n p s r => rfl⟩
  · unfold handlePromptSubmit
    rw [if_neg (by simp [hp, hg]), herr]
    simp [addToHistory]
  · unfold handlePromptSubmit
    rw [if_neg (by simp [hp, hg]), hok]
    simp [hval, addToHistory]
  · unfold handlePromptSubmit
    rw [if_neg (by simp [hp, hg]), hok]
    have hvfalse : ¬((validateSQL alasql sql).valid = false) := by simp [hval]
    have hisNone : (executeSQL alasql elapsed sql data).error.isNone = false := by
      cases h : (executeSQL alasql elapsed sql data).error with
      | none => exact absurd h herr
      | some e => rfl
    simp [hvfalse, hisNone, addToHistory]
  · unfold handleManualSqlRun
    rw [if_neg hm]
    simp [hval]
  · unfold handleManualSqlRun
    rw [if_neg hm]
    have hvfalse : ¬((validateSQL alasql st.generatedSql).valid = false) := by
      simp [hval]
    have hisNone : (executeSQL alasql elapsed st.generatedSql data).error.isNone
        = false := by
      cases h : (executeSQL alasql elapsed st.generatedSql data).error with
      | none => exact absurd h herr
      | some e => rfl
    simp [hvfalse, hisNone, addToHistory]

/-- An engine that parses everything but fails at execution. -/
def execFailEngine : AlaSql :=
  { parse := fun _ => Except.ok (),
    run := fun _ _ => Except.error "Table not found" }

/-- Witness for C5 (amended): a concrete translation failure and a
concrete manual execution error are each recorded with one error entry,
while a concrete manual validation failure records nothing. -/
theorem pipeline_errors_recorded_witness :
    (handlePromptSubmit (some gateEngine) (Except.error "boom")
        0 0 [] gateState).1.history =
      mkHistoryItem 0 "how many cases" ""
        { data := [], error := some "Failed to generate SQL from prompt." } false
        :: gateState.history
    ∧ (handleManualSqlRun (some gateEngine) 0 0 [] gateState).1.history
        = gateState.history
    ∧ (handleManualSqlRun (some execFailEngine) 0 0 [] gateState).1.history =
        mkHistoryItem 0 "Manual Query" "SELEC * FORM ?"
          (executeSQL (some execFailEngine) 0 "SELEC * FORM ?" []) false
          :: gateState.history :=
  ⟨(pipeline_errors_recorded (some gateEngine) (Except.error "boom")
      0 0 [] gateState).1 "Failed to generate SQL from prompt." (by decide) rfl rfl,
   (pipeline_errors_recorded (some gateEngine) (Except.ok none)
      0 0 [] gateState).2.2.2.1 "Parse error near FORM" (by decide) rfl,
   (pipeline_errors_recorded (some execFailEngine) (Except.ok none)
      0 0 [] gateState).2.2.2.2.1 (by decide) rfl (by decide)⟩

/-! ## Claim C6 — history append-only, newest first, id uniqueness -/

/-- Counterexample to C6: two submissions recorded at the same
`Date.now()` millisecond yield two distinct history entries (their
prompts differ) that share the same id string. -/
theorem history_id_collision :
    mkHistoryItem 5 "first" "SELECT 1" { data := [] } true ≠
        mkHistoryItem 5 "second" "SELECT 2" { data := [] } false
    ∧ (mkHistoryItem 5 "first" "SELECT 1" { data := [] } true).id =
        (mkHistoryItem 5 "second" "SELECT 2" { data := [] } false).id
    ∧ addToHistory 5 "second" "SELECT 2" { data := [] } false
        (addToHistory 5 "first" "SELECT 1" { data := [] } true []) =
      [mkHistoryItem 5 "second" "SELECT 2" { data := [] } false,
       mkHistoryItem 5 "first" "SELECT 1" { data := [] } true] := by
  refine ⟨fun hc => ?_, rfl, rfl⟩
  have hpr := congrArg HistoryItem.prompt hc
  simp [mkHistoryItem] at hpr

/-- Claim C6 (amended): each recorded submission prepends exactly one
new entry at the front of the history, leaving every existing entry
untouched; entries created at distinct `Date.now()` readings have
distinct id strings, while entries created within the same millisecond
share an id. -/
theorem history_append_only (now : Nat) (promptText sql : String)
    (result : QueryResult) (isSuccess : Bool) (prev : List HistoryItem) :
    addToHistory now promptText sql result isSuccess prev =
      mkHistoryItem now promptText sql result isSuccess :: prev
    ∧ (∀ n1 n2 p1 p2 s1 s2 r1 r2 o1 o2, n1 ≠ n2 →
        (mkHistoryItem n1 p1 s1 r1 o1).id ≠ (mkHistoryItem n2 p2 s2 r2 o2).id) :=
  ⟨rfl, fun n1 n2 _ _ _ _ _ _ _ _ hne hid => hne (jsNatRepr_injective n1 n2 hid)⟩

/-- Witness for C6 (amended) at concrete entries and timestamps 1 and 2. -/
theorem history_append_only_witness :
    addToHistory 1 "q" "SELECT 1" { data := [] } true [] =
      [mkHistoryItem 1 "q" "SELECT 1" { data := [] } true]
    ∧ (mkHistoryItem 1 "q" "SELECT 1" { data := [] } true).id ≠
        (mkHistoryItem 2 "q" "SELECT 1" { data := [] } true).id :=
  ⟨(history_append_only 1 "q" "SELECT 1" { data := [] } true []).1,
   (history_append_only 1 "q" "SELECT 1" { data := [] } true []).2
     1 2 "q" "q" "SELECT 1" "SELECT 1" { data := [] } { data := [] } true true
     (by decide)⟩

end ConverseData
